import Mathlib

/-!
Verification of the HTTP request-execution pipeline of this repository
(`ab_request/http_client`: client, formatter, async executor, cache) against its
natural-language specification.

The Python modules are shallowly embedded as Lean definitions:

* JSON-like Python values (`JsonValue`) and insertion-ordered dicts (`PyDict`);
* the canonical cache-key serialization of `cache._generate_cache_key`
  (`json.dumps(..., sort_keys=True, separators=(",", ":"), ensure_ascii=False)`);
* `formatter.DefaultResponseFormatter.format`;
* `client.BaseClient._make_request` / `_make_request_and_format` / `request`,
  with the transport given as an oracle `send : PyDict → Nat → TransportOutcome`
  (the underlying HTTP library is an external collaborator in the spec);
* `async_executor.ThreadPoolAsyncExecutor.execute`, with the nondeterministic
  completion order of `as_completed` modelled as an arbitrary permutation of
  the task indices;
* `cache.InMemoryCacheBackend` (ordered-dict LRU structure with expiry) and the
  `CacheClientMixin` request paths (`_process_single_request`, `_cached_request`,
  `_uncached_request`), with wall-clock time passed explicitly as `now`.

`constants.py` of the `http_client` package is not part of the sources under
study; the handful of values taken from it (the three reserved negative result
codes, the cacheable method set, the default retry configuration) are modelled
from the spec and are marked `Modelled from the spec:` at their definitions.
-/

/-! ## Python-like JSON values and dicts -/

/-- A JSON-like Python value: the payloads that appear in request specs
(`params`, `data`, `json`, ...) and in parsed response data.  Python dicts are
embedded as insertion-ordered association lists (`obj`), mirroring how
`dict` preserves insertion order; real dicts never contain duplicate keys,
which theorems track through `Nodup` hypotheses where it matters.
Floats are outside the modelled domain (ints cover every claim). -/
inductive JsonValue
  | null
  | bool (b : Bool)
  | num (n : Int)
  | str (s : String)
  | arr (xs : List JsonValue)
  | obj (fields : List (String × JsonValue))

/-- A Python dict with string keys and JSON-like values, in insertion order. -/
abbrev PyDict := List (String × JsonValue)

/-- `d.get(k)` / `d[k]` on a Python dict: first binding of the key, if any. -/
def PyDict.get : PyDict → String → Option JsonValue
  | [], _ => none
  | (k', v) :: rest, k => if k' = k then some v else PyDict.get rest k

/-- Python truthiness of a JSON-like value (`bool(v)`): `None`, `False`, `0`,
`""`, `[]` and `{}` are falsy, everything else is truthy. -/
def truthy : JsonValue → Bool
  | .null => false
  | .bool b => b
  | .num n => n != 0
  | .str s => s != ""
  | .arr xs => !xs.isEmpty
  | .obj fs => !fs.isEmpty

/-- `d.get(k, default)` for a string-valued entry.  Non-string values under a
key that the source treats as a string (`method`, `endpoint`) are outside the
modelled domain; the default is returned for them. -/
def pyGetStr (d : PyDict) (k : String) (default : String) : String :=
  match PyDict.get d k with
  | some (.str s) => s
  | _ => default

/-! ## Canonical serialization (cache-key derivation)

`_generate_cache_key` serializes a key dict with
`json.dumps(key_data, sort_keys=True, default=str, separators=(",", ":"), ensure_ascii=False)`
and hashes the UTF-8 bytes with a fixed-size blake2b digest.  The digest is an
external library primitive; it is kept abstract as a parameter `hash`, so key
equality is derived from equality of the serialized strings.  Every value the
pipeline places in `key_data` is JSON-serializable, so `default=str` never
fires in the modelled domain. -/

/-- One lowercase hex digit, as used by JSON `\u00XX` control-character
escapes. -/
def hexDigitChar (n : Nat) : String :=
  String.singleton (Char.ofNat (if n < 10 then 48 + n else 87 + n))

/-- JSON string escaping of one character, as `json.dumps` with
`ensure_ascii=False` performs it: quote and backslash escaped, the
short escapes for the common control characters, `\u00XX` for the rest,
every other character emitted literally. -/
def jsonEscapeChar (c : Char) : String :=
  if c = '"' then "\\\""
  else if c = '\\' then "\\\\"
  else if c = '\n' then "\\n"
  else if c = '\t' then "\\t"
  else if c = '\r' then "\\r"
  else if c.toNat = 8 then "\\b"
  else if c.toNat = 12 then "\\f"
  else if c.toNat < 32 then "\\u00" ++ hexDigitChar (c.toNat / 16) ++ hexDigitChar (c.toNat % 16)
  else String.singleton c

/-- A JSON string literal: quotes around the escaped characters. -/
def jsonQuote (s : String) : String :=
  "\"" ++ String.join (s.data.map jsonEscapeChar) ++ "\""

/-- Order on serialized object fields: by key, compared as the code-point
sequence of the key string — exactly how Python's `sorted` orders the keys for
`sort_keys=True`.  Stated on `String.data` so that it is kernel-decidable. -/
def keyLe (a b : String × String) : Prop := a.1.data ≤ b.1.data

instance : DecidableRel keyLe := fun a b => inferInstanceAs (Decidable (a.1.data ≤ b.1.data))

instance : IsTotal (String × String) keyLe := ⟨fun a b => le_total a.1.data b.1.data⟩

instance : IsTrans (String × String) keyLe := ⟨fun _ _ _ h₁ h₂ => le_trans h₁ h₂⟩

mutual
/-- `json.dumps(v, sort_keys=True, separators=(",", ":"), ensure_ascii=False)`:
compact separators, object fields emitted in sorted key order.  Sorting is
modelled with the (stable) insertion sort; `sorted` is likewise stable, and on
the duplicate-free key lists of real Python dicts all stable sorts agree. -/
def serializeJson : JsonValue → String
  | .null => "null"
  | .bool b => if b then "true" else "false"
  | .num n => toString n
  | .str s => jsonQuote s
  | .arr xs => "[" ++ String.intercalate "," (serializeList xs) ++ "]"
  | .obj fs =>
      "\x7b" ++
        String.intercalate ","
          ((List.insertionSort keyLe (serializeFields fs)).map
            (fun p => jsonQuote p.1 ++ ":" ++ p.2)) ++
        "\x7d"

/-- Serializations of the elements of a JSON array, in order. -/
def serializeList : List JsonValue → List String
  | [] => []
  | x :: xs => serializeJson x :: serializeList xs

/-- Object fields paired with the serializations of their values, in the
original field order (sorting happens at the object node). -/
def serializeFields : List (String × JsonValue) → List (String × String)
  | [] => []
  | (k, v) :: fs => (k, serializeJson v) :: serializeFields fs
end

/-- `str.rstrip("/")`: drop trailing slashes.  Implemented over the character
list so that it reduces in the kernel. -/
def rstripSlashes (s : String) : String :=
  String.mk ((s.data.reverse.dropWhile (· = '/')).reverse)

/-- `str.lstrip("/")`: drop leading slashes. -/
def lstripSlashes (s : String) : String := String.mk (s.data.dropWhile (· = '/'))

/-- `str.upper()` restricted to ASCII, as applied to HTTP method names. -/
def pyUpper (s : String) : String := String.mk (s.data.map Char.toUpper)

/-- The optional `key_data` entry contributed by one of the keys
`params` / `data` / `json`: present iff `request_kwargs.get(k)` is truthy
(`if request_kwargs.get(k): key_data[k] = request_kwargs[k]`). -/
def includedField (kwargs : PyDict) (k : String) : Option JsonValue :=
  match PyDict.get kwargs k with
  | some v => if truthy v then some v else none
  | none => none

/-- The field-list chunk contributed by `includedField`. -/
def optFieldChunk (kwargs : PyDict) (k : String) : List (String × JsonValue) :=
  match includedField kwargs k with
  | some v => [(k, v)]
  | none => []

/-- The optional `user` entry of `key_data`: present iff the user identifier
is truthy (`if user_identifier: key_data["user"] = user_identifier`). -/
def userChunk : Option String → List (String × JsonValue)
  | some u => if u ≠ "" then [("user", .str u)] else []
  | none => []

/-- The pre-hash canonical string of `cache._generate_cache_key`: the sorted
compact JSON serialization of
`{url: f"{base_url}/{endpoint}".rstrip("/"), method: method.upper(), params?, data?, json?, user?}`. -/
def cacheKeyMaterial (baseUrl endpoint method : String) (requestKwargs : PyDict)
    (userIdentifier : Option String) : String :=
  let url := rstripSlashes (baseUrl ++ "/" ++ endpoint)
  let keyData : List (String × JsonValue) :=
    [("url", .str url), ("method", .str (pyUpper method))] ++
      optFieldChunk requestKwargs "params" ++
      optFieldChunk requestKwargs "data" ++
      optFieldChunk requestKwargs "json" ++
      userChunk userIdentifier
  serializeJson (.obj keyData)

/-- `cache._generate_cache_key`: the blake2b-128 hex digest of the canonical
string.  The digest function of `hashlib` is an external collaborator and is
abstracted as `hash`; equal canonical strings give equal keys for every digest
function. -/
def generateCacheKey (hash : String → String) (baseUrl endpoint method : String)
    (requestKwargs : PyDict) (userIdentifier : Option String) : String :=
  hash (cacheKeyMaterial baseUrl endpoint method requestKwargs userIdentifier)

/-! ## Structural equality of JSON values up to object-key reordering -/

mutual
/-- Two JSON-like values that are structurally equal up to reordering of
object fields: identical scalars, pointwise-related arrays, and objects whose
field lists are permutations of pointwise-related (same key, related value)
lists.  The left object's keys are required duplicate-free, as the keys of
every real Python dict are. -/
inductive StructEq : JsonValue → JsonValue → Prop
  | null : StructEq .null .null
  | bool (b : Bool) : StructEq (.bool b) (.bool b)
  | num (n : Int) : StructEq (.num n) (.num n)
  | str (s : String) : StructEq (.str s) (.str s)
  | arr : StructEqList xs ys → StructEq (.arr xs) (.arr ys)
  | obj (gs' : List (String × JsonValue)) : (fs.map Prod.fst).Nodup → List.Perm gs gs' →
      StructEqFields fs gs' → StructEq (.obj fs) (.obj gs)

/-- Pointwise `StructEq` on JSON arrays. -/
inductive StructEqList : List JsonValue → List JsonValue → Prop
  | nil : StructEqList [] []
  | cons : StructEq x y → StructEqList xs ys → StructEqList (x :: xs) (y :: ys)

/-- Pointwise equality of keys together with `StructEq` of values on object
field lists. -/
inductive StructEqFields : List (String × JsonValue) → List (String × JsonValue) → Prop
  | nil : StructEqFields [] []
  | cons (k : String) : StructEq v w → StructEqFields fs gs →
      StructEqFields ((k, v) :: fs) ((k, w) :: gs)
end

/-! ## Exception taxonomy and result envelope

From `http_client/exceptions.py` and `http_client/formatter.py`.  The envelope
key that the spec calls `success` is named `result` in the source dicts; the
Lean field is named `result` after the source. -/

/-- The `APIClientError` hierarchy of `exceptions.py`.  `http` carries the
`status_code` attribute (taken from the attached response, `none` when the
exception was built without a response); `str(e)` is the stored message. -/
inductive APIClientError
  | http (msg : String) (statusCode : Option Int)
  | network (msg : String)
  | timeoutErr (msg : String)
  | validation (msg : String)
  | base (msg : String)
deriving DecidableEq

/-- `str(e)` on an `APIClientError`. -/
def APIClientError.message : APIClientError → String
  | .http m _ => m
  | .network m => m
  | .timeoutErr m => m
  | .validation m => m
  | .base m => m

/-- `getattr(e, "status_code", RESPONSE_CODE_NON_HTTP_ERROR)` as used by the
no-formatter fallback of `_make_request_and_format`: the attribute exists only
on `APIClientHTTPError` (and may itself be `None`); every other error falls
back to the default.  The default is supplied by the caller. -/
def APIClientError.statusCodeAttr (e : APIClientError) (default : Int) : Option Int :=
  match e with
  | .http _ sc => sc
  | _ => some default

/-- Modelled from the spec: `RESPONSE_CODE_NON_HTTP_ERROR` from the missing
`constants.py` — the reserved negative sentinel for non-HTTP transport
failures ("one of three reserved negative sentinels"; the sibling
`src/ab_request/formatter.py` uses `-1` for this case). -/
def RESPONSE_CODE_NON_HTTP_ERROR : Int := -1

/-- Modelled from the spec: `RESPONSE_CODE_UNEXPECTED_TYPE` from the missing
`constants.py` — the reserved sentinel for an unrecognized outcome shape (the
sibling `src/ab_request/formatter.py` uses `-2`). -/
def RESPONSE_CODE_UNEXPECTED_TYPE : Int := -2

/-- Modelled from the spec: `RESPONSE_CODE_FORMATTING_ERROR` from the missing
`constants.py` — the reserved sentinel for a formatter failure, distinct from
the other two sentinels. -/
def RESPONSE_CODE_FORMATTING_ERROR : Int := -3

/-- A transport-level HTTP response as the formatter and parser see it:
`requests.Response` restricted to the fields the embedded code reads. -/
structure HTTPResponse where
  status : Int
  reason : String
  body : String
deriving DecidableEq

/-- The `data` slot of a formatted envelope: `None`, a parsed JSON-like value,
or (no-formatter fallback only) the raw response object itself. -/
inductive EnvData
  | null
  | json (v : JsonValue)
  | raw (r : HTTPResponse)

/-- The normalized result envelope `{result, code, message, data}` produced by
formatting (spec: `ResultEnvelope`, with `success` for the `result` key). -/
structure ResultEnvelope where
  result : Bool
  code : Option Int
  message : String
  data : EnvData

/-- `parsed_data` as an `EnvData` slot (`None` stays `None`). -/
def envDataOf : Option JsonValue → EnvData
  | some v => .json v
  | none => .null

/-- The first positional `response_or_exception` argument of a formatter, as
`DefaultResponseFormatter.format` dispatches on it: a `requests.Response`, an
`APIClientError`, or any other object (carrying only its type name, which is
all the fallback branch reads). -/
inductive FormatterInput
  | resp (r : HTTPResponse)
  | err (e : APIClientError)
  | other (typeName : String)

/-- `DefaultResponseFormatter.format` from `formatter.py`: dispatch on the
shape of `response_or_exception`, honouring `parse_error` for responses and
the truthiness of the `status_code` attribute for `APIClientError`s. -/
def DefaultResponseFormatter.format (roe : FormatterInput) (requestConfig : PyDict)
    (parsedData : Option JsonValue) (parseError : Option String) : ResultEnvelope :=
  match roe with
  | .resp r =>
    match parseError with
    | some pe =>
        { result := false, code := some r.status, message := "Parsing failed: " ++ pe,
          data := .null }
    | none =>
        { result := true, code := some r.status, message := "Success",
          data := envDataOf parsedData }
  | .err e =>
    { result := false
      code := some (match e with
        | .http _ (some s) => if s ≠ 0 then s else RESPONSE_CODE_NON_HTTP_ERROR
        | _ => RESPONSE_CODE_NON_HTTP_ERROR)
      message := e.message
      data := .null }
  | .other t =>
    { result := false, code := some RESPONSE_CODE_UNEXPECTED_TYPE,
      message := "Unexpected response/exception type: " ++ t, data := .null }

/-! ## Transport, retry and the single-request pipeline (`client.py`) -/

/-- One raw transport exchange, as the opaque HTTP library reports it to the
session: a response (status, reason, body), a timeout, or a connection-level
failure. -/
inductive TransportOutcome
  | resp (status : Int) (reason : String) (body : String)
  | timeout
  | connError (msg : String)

/-- The retry-relevant slice of `retry_config` (`urllib3.util.retry.Retry`
keyword arguments configured in `BaseClient._create_session`). -/
structure RetryConfig where
  total : Nat
  statusForcelist : List Int
  allowedMethods : List String

/-- Modelled from the spec: `DEFAULT_RETRY_CONFIG` from the missing
`constants.py`, parametrized by the client's `retries` value (the constructor
overwrites `retry_config["total"]` with `retries`).  Status forcelist
429/500/502/503/504 and the idempotent-method allow-set follow §4.3 of the
spec; `raise_on_status=False` (exhaustion returns the last response rather
than raising), as in the sibling `src/ab_request/client.py`, realizes the
spec's "surfaces the last observed failure". -/
def defaultRetryConfig (total : Nat) : RetryConfig :=
  { total := total
    statusForcelist := [429, 500, 502, 503, 504]
    allowedMethods := ["HEAD", "GET", "PUT", "DELETE", "OPTIONS", "TRACE"] }

/-- Modelled from the spec: the retry loop that the mounted
`urllib3.util.retry.Retry` adapter runs around the raw transport (§4.3 of the
spec; the library itself is an external collaborator).  An attempt is retried
iff it is a retryable failure — a status in the forcelist, or a
connection-level failure/timeout — and the method is in the allow-set and
retries remain; with `raise_on_status=False`, exhaustion hands the last
outcome back to the session.  `send k` is the outcome of transport call
number `k`; the result pairs the final outcome with the number of transport
calls issued. -/
def retryLoop (rc : RetryConfig) (method : String) (send : Nat → TransportOutcome) :
    Nat → Nat → TransportOutcome × Nat
  | attempt, remaining =>
    let out := send attempt
    let retryable :=
      match out with
      | .resp s _ _ => decide (s ∈ rc.statusForcelist) && decide (method ∈ rc.allowedMethods)
      | .timeout => decide (method ∈ rc.allowedMethods)
      | .connError _ => decide (method ∈ rc.allowedMethods)
    match remaining with
    | 0 => (out, attempt + 1)
    | r + 1 =>
      if retryable then retryLoop rc method send (attempt + 1) r
      else (out, attempt + 1)

/-- The configuration slice of a constructed `BaseClient` that the embedded
request path reads: resolved strategies are stored as functions (a parser may
raise, modelled as `Except String`; a formatter may raise likewise). -/
structure BaseClient where
  baseUrl : String
  defaultEndpoint : String
  defaultMethod : String
  timeout : Int
  retries : Nat
  retryConfig : RetryConfig
  responseParser : Option (HTTPResponse → Except String JsonValue)
  responseFormatter :
    Option (FormatterInput → PyDict → Option JsonValue → Option String →
      Except String ResultEnvelope)

/-- The default formatter as a pipeline strategy: `DefaultResponseFormatter`
never raises. -/
def defaultFormatterFn (roe : FormatterInput) (cfg : PyDict) (pd : Option JsonValue)
    (pe : Option String) : Except String ResultEnvelope :=
  .ok (DefaultResponseFormatter.format roe cfg pd pe)

/-- URL construction of `_make_request`:
`f"{self.base_url}/{endpoint.lstrip('/')}" if endpoint else self.base_url`. -/
def buildUrl (c : BaseClient) (endpoint : String) : String :=
  if endpoint ≠ "" then c.baseUrl ++ "/" ++ lstripSlashes endpoint
  else c.baseUrl

/-- `BaseClient._make_request`: resolve method/endpoint, run the transport
through the session (retry-mounted only when `retries > 0`), then
`raise_for_status` and conversion of every `requests` exception into the
`APIClientError` taxonomy.  Returns the converted outcome together with the
number of transport calls issued.  `send` is the per-spec transport oracle. -/
def BaseClient.makeRequest (c : BaseClient) (send : PyDict → Nat → TransportOutcome)
    (requestConfig : PyDict) : Except APIClientError HTTPResponse × Nat :=
  let method := pyUpper (pyGetStr requestConfig "method" c.defaultMethod)
  let endpoint := pyGetStr requestConfig "endpoint" c.defaultEndpoint
  let url := buildUrl c endpoint
  let outcome :=
    if c.retries > 0 then retryLoop c.retryConfig method (send requestConfig) 0 c.retryConfig.total
    else (send requestConfig 0, 1)
  match outcome with
  | (.resp s reason body, calls) =>
    if 400 ≤ s ∧ s < 600 then
      (.error (.http ("HTTP " ++ toString s ++ ": " ++ reason) (some s)), calls)
    else (.ok ⟨s, reason, body⟩, calls)
  | (.timeout, calls) =>
    (.error (.timeoutErr ("Request to " ++ url ++ " timed out after " ++
      toString c.timeout ++ "s")), calls)
  | (.connError m, calls) =>
    (.error (.network ("Request to " ++ url ++ " failed: " ++ m)), calls)

/-- Steps 2–4 of `_make_request_and_format`: execute the request, capture the
response or converted error, and run the configured parser on a successful
response, capturing a parser exception as `parse_error` instead of raising.
Yields the `(response_or_exception, parsed_data, parse_error)` triple handed
to the formatter. -/
def BaseClient.formatterStage (c : BaseClient) (send : PyDict → Nat → TransportOutcome)
    (requestConfig : PyDict) : FormatterInput × Option JsonValue × Option String :=
  match (c.makeRequest send requestConfig).1 with
  | .ok r =>
    match c.responseParser with
    | some p =>
      match p r with
      | .ok v => (.resp r, some v, none)
      | .error pe => (.resp r, none, some pe)
    | none => (.resp r, none, none)
  | .error e => (.err e, none, none)

/-- `BaseClient._make_request_and_format`: the full single-request path.
Step 5 invokes the configured formatter, falling back to the hard-coded
envelope with `RESPONSE_CODE_FORMATTING_ERROR` if it raises; step 6 is the
no-formatter fallback.  This function is total: no failure path escapes as an
exception. -/
def BaseClient.makeRequestAndFormat (c : BaseClient) (send : PyDict → Nat → TransportOutcome)
    (requestConfig : PyDict) : ResultEnvelope :=
  let stage := c.formatterStage send requestConfig
  let roe := stage.1
  let parsedData := stage.2.1
  let parseError := stage.2.2
  match c.responseFormatter with
  | some f =>
    match f roe requestConfig parsedData parseError with
    | .ok env => env
    | .error formatError =>
      { result := false, code := some RESPONSE_CODE_FORMATTING_ERROR,
        message := "Formatting failed: " ++ formatError, data := .null }
  | none =>
    match roe, parseError with
    | .resp r, some pe =>
      { result := false, code := some r.status, message := "Parsing failed: " ++ pe,
        data := .null }
    | .resp r, none =>
      { result := true, code := some r.status, message := "Success (No formatter)",
        data := match parsedData with | some v => .json v | none => .raw r }
    | .err e, _ =>
      { result := false, code := e.statusCodeAttr RESPONSE_CODE_NON_HTTP_ERROR,
        message := e.message, data := .null }
    | .other t, _ =>
      { result := false, code := some RESPONSE_CODE_UNEXPECTED_TYPE,
        message := "Unexpected response/exception type: " ++ t, data := .null }

/-! ## Batch execution (`async_executor.py`) and the public entry point -/

/-- The outcome of one submitted task (`future.result()` in the collection
loop): the formatted envelope, an escaping `APIClientError`, or any other
escaping exception (carrying its text). -/
inductive TaskOutcome
  | ok (env : ResultEnvelope)
  | raiseAPI (e : APIClientError)
  | raiseOther (msg : String)

/-- One slot of a batch result: a formatted envelope or an exception object
(the mixed representation §7 of the spec notes). -/
inductive BatchItem
  | env (e : ResultEnvelope)
  | exc (e : APIClientError)

/-- The `try/except` around `future.result()` in
`ThreadPoolAsyncExecutor.execute`: an `APIClientError` is stored as-is, any
other exception is wrapped into `APIClientError(f"Unexpected error: {e}")`. -/
def collectOutcome : TaskOutcome → BatchItem
  | .ok env => .env env
  | .raiseAPI e => .exc e
  | .raiseOther m => .exc (.base ("Unexpected error: " ++ m))

/-- `ThreadPoolAsyncExecutor.execute` on `n` submitted tasks whose outcomes
are given by `run`: a `None`-prefilled slot list is written at each task's
original index as futures complete.  The completion order of `as_completed`
is nondeterministic and is passed in as `order` (a permutation of
`0, ..., n-1`); every thread-interleaving of the real executor corresponds to
some `order`. -/
def ThreadPoolAsyncExecutor.execute (run : Nat → TaskOutcome) (n : Nat)
    (order : List Nat) : List (Option BatchItem) :=
  order.foldl (fun results idx => results.set idx (some (collectOutcome (run idx))))
    (List.replicate n none)

/-- The `request_data` argument of `BaseClient.request`: `None`, a single
spec dict, a list of spec dicts, or a value of any other type (which only
`ValidationError` handling ever inspects). -/
inductive ReqData
  | noneInput
  | dict (d : PyDict)
  | listOf (ds : List PyDict)
  | invalid (desc : String)

/-- The value returned by `BaseClient.request`: a single formatted envelope,
or the batch list. -/
inductive ReqOutput
  | single (env : ResultEnvelope)
  | batch (items : List BatchItem)

/-- `BaseClient.request` (the instance path of the descriptor): `None` is
normalized to `{}`; a dict goes through `_make_request_and_format`; an empty
list returns `[]`; a non-empty list is dispatched to the executor when
`is_async` and run sequentially otherwise; anything else raises
`APIClientValidationError`.  The resolved concurrency executor is passed as
`exec`. -/
def BaseClient.request (c : BaseClient) (send : PyDict → Nat → TransportOutcome)
    (exec : List PyDict → List BatchItem) (requestData : ReqData) (isAsync : Bool) :
    Except APIClientError ReqOutput :=
  match requestData with
  | .noneInput => .ok (.single (c.makeRequestAndFormat send []))
  | .dict d => .ok (.single (c.makeRequestAndFormat send d))
  | .listOf ds =>
    if ds.isEmpty then .ok (.batch [])
    else if isAsync then .ok (.batch (exec ds))
    else .ok (.batch (ds.map (fun d => .env (c.makeRequestAndFormat send d))))
  | .invalid _ =>
    .error (.validation "request_data must be a dictionary or a list of dictionaries")

/-! ## Cache backend and cache mixin (`cache.py`) -/

/-- `InMemoryCacheBackend`: the `OrderedDict` of `(value, expire_at)` pairs is
embedded as a list of `(key, value, expire_at)` triples in recency order — the
head is the least recently used entry (`next(iter(...))`), the tail the most
recent (`move_to_end`).  `time.time()` values are passed explicitly as `now`.
Real ordered dicts never hold duplicate keys, and every operation below
preserves that; deletion is modelled with `filter` over the key. -/
structure InMemoryCacheBackend (α : Type) where
  entries : List (String × α × Option Int)
  maxsize : Nat

/-- The eviction loop at the end of `InMemoryCacheBackend.set`:
`while len(cache) > maxsize`, the oldest entry is deleted if it has expired;
the loop breaks as soon as the oldest entry is unexpired. -/
def evictLoopSet (now : Int) (maxsize : Nat) :
    List (String × α × Option Int) → List (String × α × Option Int)
  | [] => []
  | e :: rest =>
    if rest.length + 1 > maxsize then
      match e.2.2 with
      | some t => if now ≥ t then evictLoopSet now maxsize rest else e :: rest
      | none => e :: rest
    else e :: rest

/-- `InMemoryCacheBackend.set`: compute `expire_at = time.time() + expire if
expire else None` (so `expire=0` and `expire=None` both mean no expiry),
write the entry, `move_to_end` it, then run the eviction loop. -/
def InMemoryCacheBackend.set (c : InMemoryCacheBackend α) (now : Int) (key : String)
    (value : α) (expire : Option Int) : InMemoryCacheBackend α :=
  let expireAt : Option Int :=
    match expire with
    | some e => if e = 0 then none else some (now + e)
    | none => none
  let inserted := (c.entries.filter (fun e => e.1 ≠ key)) ++ [(key, value, expireAt)]
  { c with entries := evictLoopSet now c.maxsize inserted }

/-- `InMemoryCacheBackend.get`: a missing key returns `None`; an expired entry
is deleted and reported as a miss; a live hit is `move_to_end`-ed.  The
mutated backend is returned alongside the value. -/
def InMemoryCacheBackend.get (c : InMemoryCacheBackend α) (now : Int) (key : String) :
    Option α × InMemoryCacheBackend α :=
  match c.entries.find? (fun e => e.1 = key) with
  | none => (none, c)
  | some (_, v, expireAt) =>
    match expireAt with
    | some t =>
      if now ≥ t then (none, { c with entries := c.entries.filter (fun e => e.1 ≠ key) })
      else (some v, { c with entries :=
        (c.entries.filter (fun e => e.1 ≠ key)) ++ [(key, v, expireAt)] })
    | none =>
      (some v, { c with entries :=
        (c.entries.filter (fun e => e.1 ≠ key)) ++ [(key, v, none)] })

/-- Modelled from the spec: `CACHEABLE_METHODS` from the missing
`constants.py` — the idempotent-read methods; the `CacheClientMixin`
docstring in `cache.py` names GET/HEAD as the auto-cached methods. -/
def CACHEABLE_METHODS : List String := ["GET", "HEAD"]

/-- The configuration slice of a constructed `CacheClientMixin` client:
`self.base_url`, `self._user_identifier`, the resolved `self._cache_expire`
and the cacheable method set. -/
structure CacheConfig where
  baseUrl : String
  userIdentifier : Option String
  cacheExpire : Option Int
  cacheableMethods : List String

/-- `CacheClientMixin._get_cache_key` on a dict spec: `None` unless the
(defaulted, upper-cased) method is cacheable, else the key derived from the
spec with the bookkeeping keys (`method`, `endpoint`, `cache`,
`cache_expire`) stripped.  The key is represented by its pre-hash canonical
string (`cacheKeyMaterial`); the digest is injective composition on top and
is irrelevant to the cache-path claims. -/
def getCacheKeyOpt (cfg : CacheConfig) (requestData : PyDict) : Option String :=
  let method := pyUpper (pyGetStr requestData "method" "GET")
  if method ∈ cfg.cacheableMethods then
    let endpoint := pyGetStr requestData "endpoint" ""
    let requestKwargs := requestData.filter
      (fun p => p.1 ∉ (["method", "endpoint", "cache", "cache_expire"] : List String))
    some (cacheKeyMaterial cfg.baseUrl endpoint method requestKwargs cfg.userIdentifier)
  else none

/-- `request_data.get("cache_expire", self._cache_expire)` as an expiry value:
the per-call integer when present, the configured default when the key is
absent; an explicit `None` (or any non-numeric value, outside the modelled
domain) means no expiry. -/
def pyGetExpire (requestData : PyDict) (defaultExpire : Option Int) : Option Int :=
  match PyDict.get requestData "cache_expire" with
  | none => defaultExpire
  | some (.num n) => some n
  | some _ => none

/-- `CacheClientMixin._process_single_request` on a dict spec: honour a
per-call `cache: false` opt-out, bypass when no cache key applies, consult the
backend, and on a miss execute `self._original_request(request_data,
is_async)`; the result is stored only when it is a dict (a single envelope)
marked successful and `is_async` is false.  `orig` is the wrapped original
`request` method; the backend state is threaded explicitly. -/
def processSingleRequest (cfg : CacheConfig)
    (orig : ReqData → Bool → Except APIClientError ReqOutput) (now : Int)
    (st : InMemoryCacheBackend ReqOutput) (requestData : PyDict) (isAsync : Bool) :
    Except APIClientError (ReqOutput × InMemoryCacheBackend ReqOutput) :=
  let useCache := match PyDict.get requestData "cache" with
    | some v => truthy v
    | none => true
  if useCache = false then (orig (.dict requestData) isAsync).map (fun r => (r, st))
  else
    match getCacheKeyOpt cfg requestData with
    | none => (orig (.dict requestData) isAsync).map (fun r => (r, st))
    | some key =>
      let read := st.get now key
      match read.1 with
      | some cachedValue => .ok (cachedValue, read.2)
      | none =>
        match orig (.dict requestData) isAsync with
        | .error e => .error e
        | .ok result =>
          let isSuccessDict := match result with
            | .single env => env.result
            | .batch _ => false
          if !isAsync && isSuccessDict then
            .ok (result, read.2.set now key result (pyGetExpire requestData cfg.cacheExpire))
          else .ok (result, read.2)

/-- The result of the cache-wrapped `request`: what `_cached_request`
returns — a single processed result or the list of per-item results. -/
inductive CacheResult
  | one (r : ReqOutput)
  | many (rs : List ReqOutput)

/-- The list comprehension of `_cached_request` over a batch:
`[self._process_single_request(item, is_async) for item in request_data]`,
with the shared backend state threaded left to right. -/
def cachedProcessList (cfg : CacheConfig)
    (orig : ReqData → Bool → Except APIClientError ReqOutput) (now : Int) :
    InMemoryCacheBackend ReqOutput → List PyDict → Bool →
    Except APIClientError (List ReqOutput × InMemoryCacheBackend ReqOutput)
  | st, [], _ => .ok ([], st)
  | st, d :: ds, isAsync =>
    match processSingleRequest cfg orig now st d isAsync with
    | .error e => .error e
    | .ok (r, st₁) =>
      match cachedProcessList cfg orig now st₁ ds isAsync with
      | .error e => .error e
      | .ok (rs, st₂) => .ok (r :: rs, st₂)

/-- `CacheClientMixin._cached_request` (installed as `self.request` when the
cache is enabled): lists map `_process_single_request` over their items;
everything else is handed to `_process_single_request` directly — for a
non-dict, non-list value that degenerates to a bypass of the cache
(`use_cache` defaults to true, no key is derived). -/
def cachedRequest (cfg : CacheConfig)
    (orig : ReqData → Bool → Except APIClientError ReqOutput) (now : Int)
    (st : InMemoryCacheBackend ReqOutput) (requestData : ReqData) (isAsync : Bool) :
    Except APIClientError (CacheResult × InMemoryCacheBackend ReqOutput) :=
  match requestData with
  | .listOf ds =>
    (cachedProcessList cfg orig now st ds isAsync).map (fun p => (.many p.1, p.2))
  | .dict d =>
    (processSingleRequest cfg orig now st d isAsync).map (fun p => (.one p.1, p.2))
  | other => (orig other isAsync).map (fun r => (.one r, st))

/-- `CacheClientMixin._uncached_request`: `cacheless` bypasses the cache
entirely; `refresh` executes the original request and then writes the result
back unconditionally for a keyed dict spec when `is_async` is false; an
unrecognized mode falls back to the original request. -/
def uncachedRequest (cfg : CacheConfig)
    (orig : ReqData → Bool → Except APIClientError ReqOutput) (now : Int)
    (st : InMemoryCacheBackend ReqOutput) (mode : String) (requestData : ReqData)
    (isAsync : Bool) :
    Except APIClientError (ReqOutput × InMemoryCacheBackend ReqOutput) :=
  if mode = "cacheless" then (orig requestData isAsync).map (fun r => (r, st))
  else if mode = "refresh" then
    match orig requestData isAsync with
    | .error e => .error e
    | .ok result =>
      match requestData with
      | .dict d =>
        match getCacheKeyOpt cfg d with
        | some key =>
          if isAsync then .ok (result, st)
          else .ok (result, st.set now key result (pyGetExpire d cfg.cacheExpire))
        | none => .ok (result, st)
      | _ => .ok (result, st)
  else (orig requestData isAsync).map (fun r => (r, st))

/-- The cache-enabled request path of a full client: `_cached_request` with
`_original_request` bound to `BaseClient.request` of the wrapped client (this
is what `_wrap_request_methods` installs). -/
def fullCachedRequest (c : BaseClient) (send : PyDict → Nat → TransportOutcome)
    (exec : List PyDict → List BatchItem) (cfg : CacheConfig) (now : Int)
    (st : InMemoryCacheBackend ReqOutput) (requestData : ReqData) (isAsync : Bool) :
    Except APIClientError (CacheResult × InMemoryCacheBackend ReqOutput) :=
  cachedRequest cfg (c.request send exec) now st requestData isAsync

/-- The spec-side reading of the cache-enabled batch path: each spec of the
list is processed independently, in input order, through the single-request
cached path, and the underlying request method is applied to each item as a
single dict — the concurrency executor never appears.  (`_original_request`
restricted to single dicts is `_make_request_and_format`.) -/
def independentSingleDispatch (c : BaseClient) (send : PyDict → Nat → TransportOutcome)
    (cfg : CacheConfig) (now : Int) (st : InMemoryCacheBackend ReqOutput)
    (ds : List PyDict) (isAsync : Bool) :
    Except APIClientError (List ReqOutput × InMemoryCacheBackend ReqOutput) :=
  cachedProcessList cfg
    (fun rd _ =>
      match rd with
      | .dict d => .ok (.single (c.makeRequestAndFormat send d))
      | _ => .error (.validation "single-dict dispatch"))
    now st ds isAsync

/-! ## Relations and concrete fixtures used by the theorems -/

/-- Lift of `StructEq` to optional values (`dict.get` results): both absent,
or both present and related. -/
def OptRel : Option JsonValue → Option JsonValue → Prop
  | none, none => True
  | some v, some w => StructEq v w
  | _, _ => False

/-- A transport stub that always answers 200 with a fixed body. -/
def sendOk : PyDict → Nat → TransportOutcome := fun _ _ => .resp 200 "OK" "\"ok\""

/-- A transport stub that always answers 503 (spec §8, retry exhaustion). -/
def send503 : PyDict → Nat → TransportOutcome := fun _ _ => .resp 503 "Service Unavailable" ""

/-- A minimal concrete client: default formatter, no parser, no retry. -/
def clientW : BaseClient :=
  { baseUrl := "https://api.test", defaultEndpoint := "", defaultMethod := "GET",
    timeout := 10, retries := 0, retryConfig := defaultRetryConfig 0,
    responseParser := none, responseFormatter := some defaultFormatterFn }

/-- The client of the retry-exhaustion scenario: `max_retries=3`. -/
def clientC3 : BaseClient :=
  { clientW with retries := 3, retryConfig := defaultRetryConfig 3 }

/-- A client whose formatter stub raises on every `format()` call. -/
def clientBoom : BaseClient :=
  { clientW with responseFormatter := some (fun _ _ _ _ => .error "boom") }

/-- A concrete cache configuration over the test base URL. -/
def cacheCfgW : CacheConfig :=
  { baseUrl := "https://api.test", userIdentifier := none, cacheExpire := none,
    cacheableMethods := CACHEABLE_METHODS }

/-- The cache key of the empty GET spec under `cacheCfgW`. -/
def cacheKeyW : String := cacheKeyMaterial "https://api.test" "" "GET" [] none

/-- A concrete failed envelope (HTTP 500 outcome). -/
def envFailW : ResultEnvelope :=
  { result := false, code := some 500, message := "server error", data := .null }

/-- A concrete successful envelope. -/
def envOkW : ResultEnvelope :=
  { result := true, code := some 200, message := "Success", data := .null }

/-- An original-request stub that always yields the failed envelope. -/
def origFailW : ReqData → Bool → Except APIClientError ReqOutput :=
  fun _ _ => .ok (.single envFailW)

/-- An original-request stub that always yields the successful envelope. -/
def origOkW : ReqData → Bool → Except APIClientError ReqOutput :=
  fun _ _ => .ok (.single envOkW)

/-- An empty in-memory backend with room for 100 entries. -/
def emptyCacheW : InMemoryCacheBackend ReqOutput := { entries := [], maxsize := 100 }

/-- A backend holding one entry for the empty-GET key that expired at time 5. -/
def expiredCacheW : InMemoryCacheBackend ReqOutput :=
  { entries := [(cacheKeyW, .single envOkW, some 5)], maxsize := 100 }

/-! ## Sorted serialization respects structural equality -/

/-- Two lists of serialized fields that are permutations of each other, both
sorted by key, with duplicate-free keys, are equal. -/
theorem sorted_perm_nodupkeys_eq : ∀ (l₁ l₂ : List (String × String)),
    l₁.Perm l₂ → l₁.Pairwise keyLe → l₂.Pairwise keyLe → (l₁.map Prod.fst).Nodup → l₁ = l₂ := by
  intro l₁
  induction l₁ with
  | nil => intro l₂ hp _ _ _; exact (List.Perm.nil_eq hp).symm ▸ rfl
  | cons a t₁ ih =>
    intro l₂ hp hs₁ hs₂ hnd
    cases l₂ with
    | nil => exact absurd hp.symm (by simp)
    | cons b t₂ =>
      have hab : a = b := by
        by_contra hne
        have ha2 : a ∈ b :: t₂ := hp.mem_iff.mp (List.mem_cons_self a t₁)
        have hb1 : b ∈ a :: t₁ := hp.symm.mem_iff.mp (List.mem_cons_self b t₂)
        have hat2 : a ∈ t₂ := by
          cases ha2 with
          | head => exact absurd rfl hne
          | tail _ h => exact h
        have hbt1 : b ∈ t₁ := by
          cases hb1 with
          | head => exact absurd rfl (fun h => hne h.symm)
          | tail _ h => exact h
        have h₁ : keyLe a b := (List.pairwise_cons.mp hs₁).1 b hbt1
        have h₂ : keyLe b a := (List.pairwise_cons.mp hs₂).1 a hat2
        have hkey : a.1 = b.1 := String.ext (le_antisymm h₁ h₂)
        have : a.1 ∉ t₁.map Prod.fst := (List.nodup_cons.mp (by simpa using hnd)).1
        exact this (hkey ▸ List.mem_map_of_mem Prod.fst hbt1)
      subst hab
      have htail : t₁ = t₂ :=
        ih t₂ (List.Perm.cons_inv hp) (List.pairwise_cons.mp hs₁).2 (List.pairwise_cons.mp hs₂).2
          (List.nodup_cons.mp (by simpa using hnd)).2
      rw [htail]

/-- `serializeFields` is the map pairing each key with its value's
serialization. -/
theorem serializeFields_eq_map (fs : List (String × JsonValue)) :
    serializeFields fs = fs.map (fun p => (p.1, serializeJson p.2)) := by
  induction fs with
  | nil => rfl
  | cons p fs ih => cases p; simp [serializeFields, ih]

/-- Pointwise-related field lists carry equal key sequences. -/
theorem structEqFields_keys : ∀ fs gs, StructEqFields fs gs → fs.map Prod.fst = gs.map Prod.fst
  | _, _, .nil => rfl
  | _, _, .cons k hv hf => by simp [structEqFields_keys _ _ hf]

mutual
/-- The canonical sorted serialization is invariant under `StructEq`: values
that differ only in object-field order serialize identically. -/
theorem serializeJson_structEq : ∀ v w, StructEq v w → serializeJson v = serializeJson w
  | _, _, .null => rfl
  | _, _, .bool b => rfl
  | _, _, .num n => rfl
  | _, _, .str s => rfl
  | _, _, .arr hl => by
    simp only [serializeJson]
    rw [serializeList_structEq _ _ hl]
  | _, _, .obj gs' hnd hperm hfields => by
    rename_i gs fs
    simp only [serializeJson]
    have h₁ : serializeFields fs = serializeFields gs' := serializeFields_structEq _ _ hfields
    have h₂ : (serializeFields fs).Perm (serializeFields gs) := by
      rw [h₁, serializeFields_eq_map, serializeFields_eq_map]
      exact (hperm.map _).symm
    have hnd' : ((serializeFields fs).map Prod.fst).Nodup := by
      rw [serializeFields_eq_map]
      simpa [List.map_map, Function.comp] using hnd
    have hsort : List.insertionSort keyLe (serializeFields fs) =
        List.insertionSort keyLe (serializeFields gs) := by
      apply sorted_perm_nodupkeys_eq
      · exact ((List.perm_insertionSort keyLe _).trans h₂).trans
          (List.perm_insertionSort keyLe _).symm
      · exact List.sorted_insertionSort keyLe _
      · exact List.sorted_insertionSort keyLe _
      · exact ((List.perm_insertionSort keyLe _).map Prod.fst).nodup_iff.mpr hnd'
    rw [hsort]

/-- Array-element serializations are invariant under pointwise `StructEq`. -/
theorem serializeList_structEq : ∀ xs ys, StructEqList xs ys → serializeList xs = serializeList ys
  | _, _, .nil => rfl
  | _, _, .cons hv hl => by
    simp only [serializeList]
    rw [serializeJson_structEq _ _ hv, serializeList_structEq _ _ hl]

/-- Field serializations are invariant under pointwise `StructEq`. -/
theorem serializeFields_structEq : ∀ fs gs, StructEqFields fs gs →
    serializeFields fs = serializeFields gs
  | _, _, .nil => rfl
  | _, _, .cons k hv hf => by
    simp only [serializeFields]
    rw [serializeJson_structEq _ _ hv, serializeFields_structEq _ _ hf]
end

/-! ## Dict lookups, truthiness and `StructEq` -/

/-- Lookup in a duplicate-free dict is invariant under permutation of its
entries. -/
theorem pydictGet_eq_of_perm : ∀ {gs gs' : PyDict}, gs.Perm gs' →
    (gs'.map Prod.fst).Nodup → ∀ k, PyDict.get gs k = PyDict.get gs' k := by
  intro gs gs' hperm
  induction hperm with
  | nil => intro _ _; rfl
  | cons x p ih =>
    intro hnd k
    obtain ⟨k', v⟩ := x
    simp only [PyDict.get]
    by_cases h : k' = k
    · simp [h]
    · simp only [h, if_false]
      exact ih (by simpa using (List.nodup_cons.mp (by simpa using hnd)).2) k
  | swap x y l =>
    intro hnd k
    obtain ⟨kx, vx⟩ := x
    obtain ⟨ky, vy⟩ := y
    have hxy : kx ≠ ky := by
      have h1 : kx ∉ List.map Prod.fst ((ky, vy) :: l) := (List.nodup_cons.mp hnd).1
      intro he
      exact h1 (by rw [he]; exact List.mem_cons_self _ _)
    simp only [PyDict.get]
    by_cases hx : kx = k <;> by_cases hy : ky = k <;> simp [hx, hy]
    · exact absurd (hx.trans hy.symm) hxy
  | trans p₁ p₂ ih₁ ih₂ =>
    intro hnd k
    have hmid := ((p₂.map Prod.fst).nodup_iff).mpr hnd
    rw [ih₁ hmid k, ih₂ hnd k]

/-- Pointwise-related field lists give `OptRel`-related lookups. -/
theorem structEqFields_get : ∀ fs gs, StructEqFields fs gs →
    ∀ k, OptRel (PyDict.get fs k) (PyDict.get gs k)
  | _, _, .nil, k => by simp [PyDict.get, OptRel]
  | _, _, .cons k₀ hv hf, k => by
    simp only [PyDict.get]
    by_cases h : k₀ = k
    · simpa [h, OptRel] using hv
    · simpa [h] using structEqFields_get _ _ hf k

/-- Structurally equal dicts give `OptRel`-related lookups. -/
theorem structEq_obj_get (fs gs : PyDict) (h : StructEq (.obj fs) (.obj gs)) (k : String) :
    OptRel (PyDict.get fs k) (PyDict.get gs k) := by
  cases h with
  | obj gs' hnd hperm hfields =>
    have hkeys : fs.map Prod.fst = gs'.map Prod.fst := structEqFields_keys _ _ hfields
    have hget : PyDict.get gs k = PyDict.get gs' k :=
      pydictGet_eq_of_perm hperm (hkeys ▸ hnd) k
    rw [hget]
    exact structEqFields_get _ _ hfields k

/-- Pointwise-related array lists are equally empty. -/
theorem structEqList_isEmpty : ∀ xs ys, StructEqList xs ys → xs.isEmpty = ys.isEmpty
  | _, _, .nil => rfl
  | _, _, .cons _ _ => rfl

/-- Pointwise-related field lists are equally empty. -/
theorem structEqFields_isEmpty : ∀ fs gs, StructEqFields fs gs → fs.isEmpty = gs.isEmpty
  | _, _, .nil => rfl
  | _, _, .cons _ _ _ => rfl

/-- Python truthiness is invariant under `StructEq`. -/
theorem structEq_truthy : ∀ v w, StructEq v w → truthy v = truthy w := by
  intro v w h
  cases h with
  | null => rfl
  | bool b => rfl
  | num n => rfl
  | str s => rfl
  | arr hl => simp [truthy, structEqList_isEmpty _ _ hl]
  | obj gs' hnd hperm hfields =>
    rename_i gs fs
    have h₁ := structEqFields_isEmpty _ _ hfields
    have h₃ : gs.isEmpty = gs'.isEmpty := by
      have h₂ := hperm.length_eq
      cases gs <;> cases gs' <;> simp_all
    simp only [truthy]
    rw [h₁, h₃]

/-- The truthiness-guarded `key_data` contribution respects related
lookups. -/
theorem includedField_optRel (kw₁ kw₂ : PyDict)
    (h : ∀ k, OptRel (PyDict.get kw₁ k) (PyDict.get kw₂ k)) (k : String) :
    OptRel (includedField kw₁ k) (includedField kw₂ k) := by
  have hk := h k
  unfold includedField
  cases h₁ : PyDict.get kw₁ k with
  | none =>
    cases h₂ : PyDict.get kw₂ k with
    | none => simp [OptRel]
    | some w => rw [h₁, h₂] at hk; exact absurd hk (by simp [OptRel])
  | some v =>
    cases h₂ : PyDict.get kw₂ k with
    | none => rw [h₁, h₂] at hk; exact absurd hk (by simp [OptRel])
    | some w =>
      rw [h₁, h₂] at hk
      have hk' : StructEq v w := by simpa [OptRel] using hk
      have ht := structEq_truthy _ _ hk'
      show OptRel (if truthy v = true then some v else none)
        (if truthy w = true then some w else none)
      rw [← ht]
      by_cases htr : truthy v = true
      · simpa [htr, OptRel] using hk'
      · simp [htr, OptRel]

/-- Pointwise-related chunks for one optional `key_data` field. -/
theorem optFieldChunk_structEqFields (kw₁ kw₂ : PyDict) (k : String)
    (h : OptRel (includedField kw₁ k) (includedField kw₂ k)) :
    StructEqFields (optFieldChunk kw₁ k) (optFieldChunk kw₂ k) := by
  unfold optFieldChunk
  cases h₁ : includedField kw₁ k with
  | none =>
    cases h₂ : includedField kw₂ k with
    | none => exact .nil
    | some w => rw [h₁, h₂] at h; exact absurd h (by simp [OptRel])
  | some v =>
    cases h₂ : includedField kw₂ k with
    | none => rw [h₁, h₂] at h; exact absurd h (by simp [OptRel])
    | some w =>
      rw [h₁, h₂] at h
      exact .cons k (by simpa [OptRel] using h) .nil

/-- `StructEqFields` is compatible with concatenation. -/
theorem structEqFields_append : ∀ {a b c d : List (String × JsonValue)},
    StructEqFields a b → StructEqFields c d → StructEqFields (a ++ c) (b ++ d)
  | _, _, _, _, .nil, h₂ => h₂
  | _, _, _, _, .cons k hv hf, h₂ => .cons k hv (structEqFields_append hf h₂)

/-- C6: for every two parameter maps that are structurally equal but enumerate
their keys in different orders — at the top level and inside any nested
`params`/`data`/`json` structure — and for any base URL, endpoint, method,
optional user identifier and digest function, `_generate_cache_key` produces
the same key; in particular `key({"a":1,"b":2}) = key({"b":2,"a":1})`. -/
theorem C6_cache_key_reorder_invariance (hash : String → String)
    (baseUrl endpoint method : String) (user : Option String) (kw₁ kw₂ : PyDict)
    (h : StructEq (.obj kw₁) (.obj kw₂)) :
    generateCacheKey hash baseUrl endpoint method kw₁ user =
      generateCacheKey hash baseUrl endpoint method kw₂ user := by
  unfold generateCacheKey
  congr 1
  unfold cacheKeyMaterial
  have hget : ∀ k, OptRel (PyDict.get kw₁ k) (PyDict.get kw₂ k) := structEq_obj_get _ _ h
  have hchunk : ∀ k, StructEqFields (optFieldChunk kw₁ k) (optFieldChunk kw₂ k) :=
    fun k => optFieldChunk_structEqFields _ _ k (includedField_optRel _ _ hget k)
  have hprefix : StructEqFields
      [("url", JsonValue.str (rstripSlashes (baseUrl ++ "/" ++ endpoint))),
       ("method", JsonValue.str (pyUpper method))]
      [("url", JsonValue.str (rstripSlashes (baseUrl ++ "/" ++ endpoint))),
       ("method", JsonValue.str (pyUpper method))] :=
    .cons _ (.str _) (.cons _ (.str _) .nil)
  have huser : StructEqFields (userChunk user) (userChunk user) := by
    cases user with
    | none => exact .nil
    | some u =>
      show StructEqFields (if u ≠ "" then [("user", JsonValue.str u)] else [])
        (if u ≠ "" then [("user", JsonValue.str u)] else [])
      by_cases hu : u = ""
      · rw [if_neg (fun hne => hne hu)]; exact .nil
      · rw [if_pos hu]; exact .cons _ (.str _) .nil
  have hfields : StructEqFields
      ([("url", JsonValue.str (rstripSlashes (baseUrl ++ "/" ++ endpoint))),
        ("method", JsonValue.str (pyUpper method))] ++
        optFieldChunk kw₁ "params" ++ optFieldChunk kw₁ "data" ++ optFieldChunk kw₁ "json" ++
        userChunk user)
      ([("url", JsonValue.str (rstripSlashes (baseUrl ++ "/" ++ endpoint))),
        ("method", JsonValue.str (pyUpper method))] ++
        optFieldChunk kw₂ "params" ++ optFieldChunk kw₂ "data" ++ optFieldChunk kw₂ "json" ++
        userChunk user) :=
    structEqFields_append
      (structEqFields_append
        (structEqFields_append
          (structEqFields_append hprefix (hchunk "params"))
          (hchunk "data"))
        (hchunk "json"))
      huser
  simp only [serializeJson]
  rw [serializeFields_structEq _ _ hfields]

/-! ## C1: the default formatter's four envelope shapes -/

/-- C1: every envelope the default response formatter produces follows the
claimed four-way схема — successful transport response without parse error
gives `{success:true, code:<status>, message:"Success", data:<parsed value>}`;
a parse error on a successful response gives `{success:false, code:<status>,
message:<parse error text>, data:null}`; a transport error gives
`{success:false, code:<status if an HTTP error with a (truthy) status, else
the reserved non-HTTP sentinel>, message:<error text>, data:null}` (all
non-HTTP error kinds and status-less or zero-status HTTP errors enumerated);
any other outcome shape gives `{success:false, code:<unexpected-type
sentinel>, message:<diagnostic>, data:null}`.  The source names the `success`
field `result`. -/
theorem C1_default_formatter_envelopes (r : HTTPResponse) (cfg : PyDict)
    (pd : Option JsonValue) (pe : String) (peo : Option String) (m t : String)
    (s : Int) (hs : s ≠ 0) :
    DefaultResponseFormatter.format (.resp r) cfg pd none =
      { result := true, code := some r.status, message := "Success", data := envDataOf pd } ∧
    DefaultResponseFormatter.format (.resp r) cfg pd (some pe) =
      { result := false, code := some r.status, message := "Parsing failed: " ++ pe,
        data := .null } ∧
    DefaultResponseFormatter.format (.err (.http m (some s))) cfg pd peo =
      { result := false, code := some s, message := m, data := .null } ∧
    DefaultResponseFormatter.format (.err (.http m none)) cfg pd peo =
      { result := false, code := some RESPONSE_CODE_NON_HTTP_ERROR, message := m,
        data := .null } ∧
    DefaultResponseFormatter.format (.err (.http m (some 0))) cfg pd peo =
      { result := false, code := some RESPONSE_CODE_NON_HTTP_ERROR, message := m,
        data := .null } ∧
    DefaultResponseFormatter.format (.err (.network m)) cfg pd peo =
      { result := false, code := some RESPONSE_CODE_NON_HTTP_ERROR, message := m,
        data := .null } ∧
    DefaultResponseFormatter.format (.err (.timeoutErr m)) cfg pd peo =
      { result := false, code := some RESPONSE_CODE_NON_HTTP_ERROR, message := m,
        data := .null } ∧
    DefaultResponseFormatter.format (.err (.validation m)) cfg pd peo =
      { result := false, code := some RESPONSE_CODE_NON_HTTP_ERROR, message := m,
        data := .null } ∧
    DefaultResponseFormatter.format (.err (.base m)) cfg pd peo =
      { result := false, code := some RESPONSE_CODE_NON_HTTP_ERROR, message := m,
        data := .null } ∧
    DefaultResponseFormatter.format (.other t) cfg pd peo =
      { result := false, code := some RESPONSE_CODE_UNEXPECTED_TYPE,
        message := "Unexpected response/exception type: " ++ t, data := .null } := by
  refine ⟨rfl, rfl, ?_, rfl, ?_, rfl, rfl, rfl, rfl, rfl⟩
  · simp [DefaultResponseFormatter.format, APIClientError.message, hs]
  · simp [DefaultResponseFormatter.format, APIClientError.message]

/-- Witness for C1 at a concrete HTTP error with status 404. -/
theorem C1_witness :
    DefaultResponseFormatter.format (.err (.http "HTTP 404: Not Found" (some 404))) [] none
        none =
      { result := false, code := some 404, message := "HTTP 404: Not Found", data := .null } :=
  (C1_default_formatter_envelopes ⟨200, "OK", ""⟩ [] none "boom" none "HTTP 404: Not Found"
    "SomeType" 404 (by decide)).2.2.1

/-! ## C2: thread-pool batch execution, ordering and isolation -/

/-- Writing results by index preserves the slot-list length. -/
theorem executorFold_length (run : Nat → TaskOutcome) :
    ∀ (order : List Nat) (acc : List (Option BatchItem)),
      (order.foldl (fun results idx => results.set idx (some (collectOutcome (run idx))))
        acc).length = acc.length := by
  intro order
  induction order with
  | nil => intro acc; rfl
  | cons a order ih =>
    intro acc
    simp only [List.foldl_cons]
    rw [ih, List.length_set]

/-- One slot of the result accumulator after the collection fold: slots of
scheduled indices hold their own task's collected outcome, every other slot is
untouched. -/
theorem executorFold_getElem (run : Nat → TaskOutcome) :
    ∀ (order : List Nat) (acc : List (Option BatchItem)) (i : Nat),
      (order.foldl (fun results idx => results.set idx (some (collectOutcome (run idx))))
          acc)[i]? =
        if i ∈ order ∧ i < acc.length then some (some (collectOutcome (run i)))
        else acc[i]? := by
  intro order
  induction order with
  | nil => intro acc i; simp
  | cons a order ih =>
    intro acc i
    simp only [List.foldl_cons]
    rw [ih, List.length_set, List.getElem?_set]
    by_cases hmem : i ∈ order <;> by_cases hlen : i < acc.length <;> by_cases ha : a = i
    · simp [hmem, hlen]
    · simp [hmem, hlen]
    · have h0 : acc[i]? = none := List.getElem?_eq_none (by omega)
      subst ha
      simp [hmem, hlen, h0]
    · have h0 : acc[i]? = none := List.getElem?_eq_none (by omega)
      simp [hmem, hlen, ha, h0]
    · subst ha
      simp [hmem, hlen]
    · have hnc : i ∉ a :: order := by
        intro h
        rcases List.mem_cons.mp h with h1 | h2
        · exact ha h1.symm
        · exact hmem h2
      simp only [hmem, hlen, false_and, and_true, if_false, and_false]
      rw [if_neg ha, if_neg (by simpa using hnc)]
    · have h0 : acc[i]? = none := List.getElem?_eq_none (by omega)
      subst ha
      simp [hmem, hlen, h0]
    · have hnc : i ∉ a :: order := by
        intro h
        rcases List.mem_cons.mp h with h1 | h2
        · exact ha h1.symm
        · exact hmem h2
      have h0 : acc[i]? = none := List.getElem?_eq_none (by omega)
      simp only [hmem, hlen, false_and, and_false, if_false, h0]
      rw [if_neg ha]

/-- C2: for every batch of `n` specs and every completion order of the
futures, the thread-pool executor returns exactly `n` slots, slot `i` holds
the collected outcome of task `i` (placement by original index, independent
of completion order), an `APIClientError` escaping a task is placed at that
task's slot and any other escaping exception is wrapped into an
`APIClientError` at that slot — sibling slots always receive their own
results. -/
theorem C2_threadpool_order_and_isolation (run : Nat → TaskOutcome) (n : Nat)
    (order : List Nat) (h : order.Perm (List.range n)) :
    (ThreadPoolAsyncExecutor.execute run n order).length = n ∧
    (∀ i, i < n →
      (ThreadPoolAsyncExecutor.execute run n order)[i]? =
        some (some (collectOutcome (run i)))) ∧
    (∀ i e, run i = .raiseAPI e → collectOutcome (run i) = .exc e) ∧
    (∀ i msg, run i = .raiseOther msg →
      collectOutcome (run i) = .exc (.base ("Unexpected error: " ++ msg))) := by
  refine ⟨?_, ?_, ?_, ?_⟩
  · unfold ThreadPoolAsyncExecutor.execute
    rw [executorFold_length, List.length_replicate]
  · intro i hi
    unfold ThreadPoolAsyncExecutor.execute
    rw [executorFold_getElem]
    have hmem : i ∈ order := h.mem_iff.mpr (List.mem_range.mpr hi)
    simp [hmem, hi]
  · intro i e he; rw [he]; rfl
  · intro i msg he; rw [he]; rfl

/-- Witness for C2: three tasks completing in the order 2, 0, 1, the middle
task raising. -/
theorem C2_witness :
    (ThreadPoolAsyncExecutor.execute
        (fun i => if i = 1 then .raiseOther "boom" else .ok envOkW) 3 [2, 0, 1]).length = 3 ∧
    (ThreadPoolAsyncExecutor.execute
        (fun i => if i = 1 then .raiseOther "boom" else .ok envOkW) 3 [2, 0, 1])[1]? =
      some (some (.exc (.base ("Unexpected error: " ++ "boom")))) := by
  have h := C2_threadpool_order_and_isolation
    (fun i => if i = 1 then .raiseOther "boom" else .ok envOkW) 3 [2, 0, 1] (by decide)
  refine ⟨h.1, ?_⟩
  rw [h.2.1 1 (by decide)]
  rfl

/-! ## C3: retry exhaustion with a permanently failing transport -/

/-- C3: with `max_retries=3` and a transport stub that always answers 503 to
a spec whose (defaulted, upper-cased) method is in the retry allow-set, one
request issues exactly 4 transport calls (1 initial + 3 retries) and the
final envelope carries the last observed failure: an unsuccessful envelope
with `code = 503`, not a synthesized retries-exhausted error code. -/
theorem C3_retry_exhaustion_503 (rd : PyDict) (reason body : String)
    (hm : pyUpper (pyGetStr rd "method" clientC3.defaultMethod) ∈
      clientC3.retryConfig.allowedMethods) :
    (clientC3.makeRequest (fun _ _ => .resp 503 reason body) rd).2 = 4 ∧
    (clientC3.makeRequestAndFormat (fun _ _ => .resp 503 reason body) rd).code = some 503 ∧
    (clientC3.makeRequestAndFormat (fun _ _ => .resp 503 reason body) rd).result = false := by
  have hdm : decide (pyUpper (pyGetStr rd "method" clientC3.defaultMethod) ∈
      clientC3.retryConfig.allowedMethods) = true := decide_eq_true hm
  have hloop : retryLoop clientC3.retryConfig
      (pyUpper (pyGetStr rd "method" clientC3.defaultMethod))
      (fun _ => TransportOutcome.resp 503 reason body) 0 clientC3.retryConfig.total =
      (.resp 503 reason body, 4) := by
    have h1 : clientC3.retryConfig.total = 3 := rfl
    rw [h1]
    have hstep : ∀ k r, retryLoop clientC3.retryConfig
        (pyUpper (pyGetStr rd "method" clientC3.defaultMethod))
        (fun _ => TransportOutcome.resp 503 reason body) k (r + 1) =
        retryLoop clientC3.retryConfig
          (pyUpper (pyGetStr rd "method" clientC3.defaultMethod))
          (fun _ => TransportOutcome.resp 503 reason body) (k + 1) r := by
      intro k r
      rw [retryLoop]
      simp only [hdm]
      rw [if_pos (by simp [clientC3, clientW, defaultRetryConfig, hdm])]
    rw [hstep, hstep, hstep, retryLoop]
  have hreq : clientC3.makeRequest (fun _ _ => .resp 503 reason body) rd =
      (.error (.http ("HTTP " ++ toString (503 : Int) ++ ": " ++ reason) (some 503)), 4) := by
    have hr : clientC3.retries > 0 := by norm_num [clientC3, clientW]
    simp only [BaseClient.makeRequest]
    rw [if_pos hr, hloop]
    norm_num
  refine ⟨by rw [hreq], ?_, ?_⟩ <;> (
    simp only [BaseClient.makeRequestAndFormat, BaseClient.formatterStage, hreq]
    simp [clientC3, clientW, defaultFormatterFn, DefaultResponseFormatter.format])

/-- Witness for C3 at the empty spec (method defaults to GET). -/
theorem C3_witness :
    (clientC3.makeRequest (fun _ _ => .resp 503 "Service Unavailable" "") []).2 = 4 ∧
    (clientC3.makeRequestAndFormat (fun _ _ => .resp 503 "Service Unavailable" "") []).code =
      some 503 ∧
    (clientC3.makeRequestAndFormat (fun _ _ => .resp 503 "Service Unavailable" "") []).result =
      false :=
  C3_retry_exhaustion_503 [] "Service Unavailable" "" (by decide)

/-! ## C7: a raising formatter never propagates -/

/-- C7: whenever the configured formatter's `format` call raises — whatever
the underlying transport outcome was — the single-request path does not
propagate the exception but returns the hard-coded fallback envelope
`{success:false, code:FORMATTING_ERROR, message:"Formatting failed: " ++ <the
formatter exception's text>, data:null}`. -/
theorem C7_formatter_failure_fallback (c : BaseClient)
    (send : PyDict → Nat → TransportOutcome) (rd : PyDict)
    (f : FormatterInput → PyDict → Option JsonValue → Option String →
      Except String ResultEnvelope) (msg : String)
    (hf : c.responseFormatter = some f)
    (hraise : f (c.formatterStage send rd).1 rd (c.formatterStage send rd).2.1
      (c.formatterStage send rd).2.2 = .error msg) :
    c.makeRequestAndFormat send rd =
      { result := false, code := some RESPONSE_CODE_FORMATTING_ERROR,
        message := "Formatting failed: " ++ msg, data := .null } := by
  simp only [BaseClient.makeRequestAndFormat, hf, hraise]

/-- Witness for C7: the raising formatter stub, once over a successful
transport outcome and once over a connection failure. -/
theorem C7_witness :
    clientBoom.makeRequestAndFormat sendOk [] =
      { result := false, code := some RESPONSE_CODE_FORMATTING_ERROR,
        message := "Formatting failed: " ++ "boom", data := .null } ∧
    clientBoom.makeRequestAndFormat (fun _ _ => .connError "down") [] =
      { result := false, code := some RESPONSE_CODE_FORMATTING_ERROR,
        message := "Formatting failed: " ++ "boom", data := .null } :=
  ⟨C7_formatter_failure_fallback clientBoom sendOk [] (fun _ _ _ _ => .error "boom") "boom"
      rfl rfl,
    C7_formatter_failure_fallback clientBoom (fun _ _ => .connError "down") []
      (fun _ _ _ _ => .error "boom") "boom" rfl rfl⟩

/-! ## C8: the validation boundary of `request` -/

/-- C8 counterexample: `request(None)` — an input that is neither a dict nor
a list — does not raise `ValidationError`; it is normalized to the empty spec
and returns an envelope, so "raises ValidationError if and only if the input
is neither a single spec nor a list" fails at `request_data = None`. -/
theorem C8_counterexample :
    (clientW.request sendOk (fun _ => []) .noneInput false).isOk = true ∧
    (∀ d, ReqData.noneInput ≠ ReqData.dict d) ∧
    (∀ ds, ReqData.noneInput ≠ ReqData.listOf ds) :=
  ⟨rfl, fun _ h => ReqData.noConfusion h, fun _ h => ReqData.noConfusion h⟩

/-- C8 (amended): `request` raises `ValidationError` exactly on inputs that
are neither a dict, nor a list, nor `None` (`None` is normalized to the empty
spec); every dict, list or `None` input returns a value, and the only error
ever thrown is that `ValidationError`. -/
theorem C8_amended_validation_boundary (c : BaseClient)
    (send : PyDict → Nat → TransportOutcome) (exec : List PyDict → List BatchItem)
    (rd : ReqData) (a : Bool) :
    (∀ s, rd = .invalid s →
      c.request send exec rd a =
        .error (.validation "request_data must be a dictionary or a list of dictionaries")) ∧
    ((∀ s, rd ≠ .invalid s) → ∃ out, c.request send exec rd a = .ok out) := by
  constructor
  · rintro s rfl
    rfl
  · intro hni
    cases rd with
    | invalid s => exact absurd rfl (hni s)
    | noneInput => exact ⟨_, rfl⟩
    | dict d => exact ⟨_, rfl⟩
    | listOf ds =>
      by_cases h1 : ds.isEmpty <;> by_cases h2 : a
      · exact ⟨.batch [], by simp [BaseClient.request, h1, h2]⟩
      · exact ⟨.batch [], by simp [BaseClient.request, h1, h2]⟩
      · exact ⟨.batch (exec ds), by simp [BaseClient.request, h1, h2]⟩
      · exact ⟨.batch (ds.map (fun d => .env (c.makeRequestAndFormat send d))),
          by simp [BaseClient.request, h1, h2]⟩

/-- Witness for C8 at a non-dict, non-list input and at a dict input. -/
theorem C8_witness :
    clientW.request sendOk (fun _ => []) (.invalid "42") false =
      .error (.validation "request_data must be a dictionary or a list of dictionaries") ∧
    (∃ out, clientW.request sendOk (fun _ => []) (.dict []) false = .ok out) :=
  ⟨(C8_amended_validation_boundary clientW sendOk (fun _ => []) (.invalid "42") false).1
      "42" rfl,
    (C8_amended_validation_boundary clientW sendOk (fun _ => []) (.dict []) false).2
      (fun _ h => ReqData.noConfusion h)⟩

/-- Witness for C6: the spec's concrete instance
`key({"a":1,"b":2}) = key({"b":2,"a":1})` inside `params`, with the digest
kept abstract as the identity function. -/
theorem C6_witness :
    generateCacheKey id "https://api.test" "/items" "GET"
        [("params", .obj [("a", .num 1), ("b", .num 2)])] none =
      generateCacheKey id "https://api.test" "/items" "GET"
        [("params", .obj [("b", .num 2), ("a", .num 1)])] none :=
  C6_cache_key_reorder_invariance id "https://api.test" "/items" "GET" none
    [("params", .obj [("a", .num 1), ("b", .num 2)])]
    [("params", .obj [("b", .num 2), ("a", .num 1)])]
    (.obj [("params", .obj [("b", .num 2), ("a", .num 1)])] (by decide) (List.Perm.refl _)
      (.cons "params"
        (.obj [("a", .num 1), ("b", .num 2)] (by decide)
          (List.Perm.swap ("a", JsonValue.num 1) ("b", JsonValue.num 2) [])
          (.cons "a" (.num 1) (.cons "b" (.num 2) .nil)))
        .nil))

/-! ## Cache backend and cache path lemmas -/

/-- The eviction loop only ever removes entries. -/
theorem evictLoopSet_subset (now : Int) (maxsize : Nat) :
    ∀ (l : List (String × α × Option Int)), ∀ e ∈ evictLoopSet now maxsize l, e ∈ l := by
  intro l
  induction l with
  | nil => intro e he; simpa [evictLoopSet] using he
  | cons a rest ih =>
    intro e he
    rw [evictLoopSet] at he
    split at he
    · split at he
      · split at he
        · exact List.mem_cons_of_mem a (ih e he)
        · exact he
      · exact he
    · exact he

/-- Every entry of the backend after a `get` was already present before it
(reads delete or reorder, never add). -/
theorem get_entries_subset (c : InMemoryCacheBackend α) (now : Int) (key : String) :
    ∀ e ∈ (c.get now key).2.entries, e ∈ c.entries := by
  intro e he
  rcases hfind : c.entries.find? (fun e => e.1 = key) with _ | ⟨k₀, v, expAt⟩
  · rw [InMemoryCacheBackend.get, hfind] at he
    exact he
  · have hmem : (k₀, v, expAt) ∈ c.entries := List.mem_of_find?_eq_some hfind
    have hk : k₀ = key := by simpa using List.find?_some hfind
    subst hk
    rcases expAt with _ | t
    · simp only [InMemoryCacheBackend.get, hfind] at he
      rcases List.mem_append.mp he with h1 | h1
      · exact (List.mem_filter.mp h1).1
      · rcases List.mem_singleton.mp h1 with rfl
        exact hmem
    · simp only [InMemoryCacheBackend.get, hfind] at he
      by_cases ht : now ≥ t
      · rw [if_pos ht] at he
        exact (List.mem_filter.mp he).1
      · rw [if_neg ht] at he
        rcases List.mem_append.mp he with h1 | h1
        · exact (List.mem_filter.mp h1).1
        · rcases List.mem_singleton.mp h1 with rfl
          exact hmem

/-- Every entry of the backend after a `set` was already present before it or
holds the written value. -/
theorem set_entries_mem (c : InMemoryCacheBackend α) (now : Int) (key : String) (value : α)
    (expire : Option Int) :
    ∀ e ∈ (c.set now key value expire).entries, e ∈ c.entries ∨ e.2.1 = value := by
  unfold InMemoryCacheBackend.set
  intro e he
  have he₁ := evictLoopSet_subset now c.maxsize _ e he
  rcases List.mem_append.mp he₁ with h1 | h1
  · exact Or.inl (List.mem_filter.mp h1).1
  · rcases List.mem_singleton.mp h1 with rfl
    exact Or.inr rfl

/-! ## C5: the eviction loop does not enforce the capacity bound -/

/-- C5 (code bug evaluation): with `maxsize = 1` and one unexpired entry,
inserting a second unexpired entry leaves two stored entries — the eviction
loop breaks on the unexpired oldest entry instead of evicting the
least-recently-used one, so capacity pressure alone never evicts and the
bound `len(cache) ≤ maxsize` fails right after `set`. -/
theorem C5_capacity_not_enforced :
    ((InMemoryCacheBackend.set { entries := [("a", 0, none)], maxsize := 1 } 0 "b" 1
        none).entries.length = 2) ∧
    (({ entries := [("a", (0 : Nat), none)], maxsize := 1 } :
        InMemoryCacheBackend Nat).maxsize = 1) :=
  ⟨rfl, rfl⟩

/-! ## C4: when the cache paths store a result -/

/-- C4 counterexample: the refresh mode stores a failed envelope.  Starting
from an empty backend, refreshing an empty GET spec whose execution yields an
unsuccessful envelope (`result = false`) writes that envelope into the cache
— a cache entry created from a failed result. -/
theorem C4_counterexample :
    uncachedRequest cacheCfgW origFailW 0 emptyCacheW "refresh" (.dict []) false =
      .ok (.single envFailW,
        { entries := [(cacheKeyW, .single envFailW, none)], maxsize := 100 }) ∧
    envFailW.result = false :=
  ⟨rfl, rfl⟩

/-- The backend state after `_process_single_request` is one of: untouched
(bypass), the post-read state (hit, error, or unstored miss), or the
post-read state with the successful single envelope written (cacheable miss,
successful, not async). -/
theorem processSingleRequest_state (cfg : CacheConfig)
    (orig : ReqData → Bool → Except APIClientError ReqOutput) (now : Int)
    (st : InMemoryCacheBackend ReqOutput) (rd : PyDict) (isAsync : Bool)
    (out : ReqOutput) (st' : InMemoryCacheBackend ReqOutput)
    (h : processSingleRequest cfg orig now st rd isAsync = .ok (out, st')) :
    st' = st ∨
    (∃ key, getCacheKeyOpt cfg rd = some key ∧ st' = (st.get now key).2) ∨
    (∃ key env, getCacheKeyOpt cfg rd = some key ∧ out = .single env ∧
      env.result = true ∧ isAsync = false ∧
      st' = (st.get now key).2.set now key out (pyGetExpire rd cfg.cacheExpire)) := by
  simp only [processSingleRequest] at h
  by_cases huc : (match PyDict.get rd "cache" with
    | some v => truthy v
    | none => true) = false
  · rw [if_pos huc] at h
    rcases horig : orig (.dict rd) isAsync with e₀ | r
    · rw [horig] at h
      simp only [Except.map] at h
      exact Except.noConfusion h
    · rw [horig] at h
      simp only [Except.map, Except.ok.injEq, Prod.mk.injEq] at h
      exact Or.inl h.2.symm
  · rw [if_neg huc] at h
    rcases hkey : getCacheKeyOpt cfg rd with _ | key
    · rw [hkey] at h
      rcases horig : orig (.dict rd) isAsync with e₀ | r
      · rw [horig] at h
        simp only [Except.map] at h
        exact Except.noConfusion h
      · rw [horig] at h
        simp only [Except.map, Except.ok.injEq, Prod.mk.injEq] at h
        exact Or.inl h.2.symm
    · rw [hkey] at h
      simp only [] at h
      rcases hread : (st.get now key).1 with _ | cv
      · rw [hread] at h
        rcases horig : orig (.dict rd) isAsync with e₀ | result
        · rw [horig] at h
          simp only [] at h
          exact Except.noConfusion h
        · rw [horig] at h
          simp only [] at h
          rcases result with env | items
          · by_cases hg : (!isAsync && env.result) = true
            · rw [if_pos (by simpa using hg)] at h
              simp only [Except.ok.injEq, Prod.mk.injEq] at h
              obtain ⟨hout, hst⟩ := h
              refine Or.inr (Or.inr ⟨key, env, rfl, hout.symm, ?_, ?_, ?_⟩)
              · simpa using (Bool.and_eq_true_iff.mp hg).2
              · simpa using (Bool.and_eq_true_iff.mp hg).1
              · rw [← hst, ← hout]
            · rw [if_neg (by simpa using hg)] at h
              simp only [Except.ok.injEq, Prod.mk.injEq] at h
              exact Or.inr (Or.inl ⟨key, rfl, h.2.symm⟩)
          · rw [if_neg (by simp)] at h
            simp only [Except.ok.injEq, Prod.mk.injEq] at h
            exact Or.inr (Or.inl ⟨key, rfl, h.2.symm⟩)
      · rw [hread] at h
        simp only [Except.ok.injEq, Prod.mk.injEq] at h
        exact Or.inr (Or.inl ⟨key, rfl, h.2.symm⟩)

/-- C4 (amended): on the normal cached path (`_process_single_request`, any
`is_async`), a cache entry is stored only from an envelope marked successful
— every entry present after the call was either present before it or holds a
successful single envelope.  The refresh mode, however, writes the resulting
value back unconditionally for a keyed dict spec when `is_async` is false,
whether or not the result is successful. -/
theorem C4_amended_cache_write_policy (cfg : CacheConfig)
    (orig : ReqData → Bool → Except APIClientError ReqOutput) (now : Int)
    (st : InMemoryCacheBackend ReqOutput) :
    (∀ (rd : PyDict) (isAsync : Bool) (out : ReqOutput)
        (st' : InMemoryCacheBackend ReqOutput),
      processSingleRequest cfg orig now st rd isAsync = .ok (out, st') →
      ∀ e ∈ st'.entries, e ∈ st.entries ∨
        ∃ env, e.2.1 = .single env ∧ env.result = true) ∧
    (∀ (d : PyDict) (result : ReqOutput) (key : String),
      orig (.dict d) false = .ok result → getCacheKeyOpt cfg d = some key →
      uncachedRequest cfg orig now st "refresh" (.dict d) false =
        .ok (result, st.set now key result (pyGetExpire d cfg.cacheExpire))) := by
  constructor
  · intro rd isAsync out st' h e he
    rcases processSingleRequest_state cfg orig now st rd isAsync out st' h with
      hst | ⟨key, _, hst⟩ | ⟨key, env, _, hout, hres, _, hst⟩
    · exact Or.inl (hst ▸ he)
    · exact Or.inl (get_entries_subset st now key e (hst ▸ he))
    · rw [hst] at he
      rcases set_entries_mem _ now key out _ e he with h1 | h1
      · exact Or.inl (get_entries_subset st now key e h1)
      · exact Or.inr ⟨env, by rw [h1, hout], hres⟩
  · intro d result key horig hkey
    simp only [uncachedRequest, horig, hkey]
    simp

/-- Witness for C4 (amended): the normal path refuses to store a failed
envelope (the backend stays empty), and the refresh path writes the failed
envelope back. -/
theorem C4_witness :
    (∀ e ∈ (emptyCacheW.entries : List (String × ReqOutput × Option Int)),
      e ∈ emptyCacheW.entries ∨ ∃ env, e.2.1 = .single env ∧ env.result = true) ∧
    uncachedRequest cacheCfgW origFailW 0 emptyCacheW "refresh" (.dict []) false =
      .ok (.single envFailW, emptyCacheW.set 0 cacheKeyW (.single envFailW)
        (pyGetExpire [] cacheCfgW.cacheExpire)) := by
  constructor
  · intro e he
    exact (C4_amended_cache_write_policy cacheCfgW origFailW 0 emptyCacheW).1 [] false
      (.single envFailW) emptyCacheW rfl e he
  · exact (C4_amended_cache_write_policy cacheCfgW origFailW 0 emptyCacheW).2 []
      (.single envFailW) cacheKeyW rfl rfl

/-! ## C9: the async flag suppresses cache writes but reads still mutate -/

/-- C9 counterexample: a cache-path call with `is_async = true` does change
the backend's stored state — the read deletes an expired entry.  Before the
call one (expired) entry is stored; after it the backend is empty, although
the claim asserts the stored state is unchanged. -/
theorem C9_counterexample :
    processSingleRequest cacheCfgW origOkW 10 expiredCacheW [] true =
      .ok (.single envOkW, { entries := [], maxsize := 100 }) ∧
    expiredCacheW.entries ≠ [] ∧ envOkW.result = true :=
  ⟨rfl, by simp [expiredCacheW], rfl⟩

/-- C9 (amended): with `is_async = true` the cache-enabled single-request
path never writes an entry — every entry stored after the call was already
stored before it (the write guard requires `is_async` to be false); the only
state changes are those of the read itself (expired-entry deletion and
recency reordering). -/
theorem C9_amended_no_write_when_async (cfg : CacheConfig)
    (orig : ReqData → Bool → Except APIClientError ReqOutput) (now : Int)
    (st : InMemoryCacheBackend ReqOutput) (rd : PyDict) (out : ReqOutput)
    (st' : InMemoryCacheBackend ReqOutput)
    (h : processSingleRequest cfg orig now st rd true = .ok (out, st')) :
    ∀ e ∈ st'.entries, e ∈ st.entries := by
  intro e he
  rcases processSingleRequest_state cfg orig now st rd true out st' h with
    hst | ⟨key, _, hst⟩ | ⟨_, _, _, _, _, habs, _⟩
  · exact hst ▸ he
  · exact get_entries_subset st now key e (hst ▸ he)
  · exact absurd habs (by simp)

/-- Witness for C9 (amended): at time 0 the stored entry is still live, the
call is a cache hit, and the single entry of the post-call state was indeed
already stored before the call. -/
theorem C9_witness :
    (cacheKeyW, ReqOutput.single envOkW, some (5 : Int)) ∈ expiredCacheW.entries :=
  C9_amended_no_write_when_async cacheCfgW origOkW 0 expiredCacheW [] (.single envOkW)
    { entries := [(cacheKeyW, .single envOkW, some 5)], maxsize := 100 } rfl
    (cacheKeyW, .single envOkW, some 5) (List.mem_singleton.mpr rfl)

/-! ## C10: the cache-enabled batch path -/

/-- `_process_single_request` consults its original request method only on
the single dict it forwards. -/
theorem processSingleRequest_congr (cfg : CacheConfig)
    (orig₁ orig₂ : ReqData → Bool → Except APIClientError ReqOutput) (now : Int)
    (st : InMemoryCacheBackend ReqOutput) (rd : PyDict) (isAsync : Bool)
    (h : ∀ d b, orig₁ (.dict d) b = orig₂ (.dict d) b) :
    processSingleRequest cfg orig₁ now st rd isAsync =
      processSingleRequest cfg orig₂ now st rd isAsync := by
  unfold processSingleRequest
  rw [h rd isAsync]

/-- The batch fold over `_process_single_request` likewise only consults the
original request method at single dicts. -/
theorem cachedProcessList_congr (cfg : CacheConfig)
    (orig₁ orig₂ : ReqData → Bool → Except APIClientError ReqOutput) (now : Int)
    (h : ∀ d b, orig₁ (.dict d) b = orig₂ (.dict d) b) :
    ∀ (st : InMemoryCacheBackend ReqOutput) (ds : List PyDict) (isAsync : Bool),
    cachedProcessList cfg orig₁ now st ds isAsync =
      cachedProcessList cfg orig₂ now st ds isAsync := by
  intro st ds
  induction ds generalizing st with
  | nil => intro isAsync; rfl
  | cons d ds ih =>
    intro isAsync
    rw [cachedProcessList, cachedProcessList,
      processSingleRequest_congr cfg orig₁ orig₂ now st d isAsync h]
    rcases processSingleRequest cfg orig₂ now st d isAsync with e | ⟨r, st₁⟩
    · rfl
    · simp only []
      rw [ih st₁]

/-- C10: the cache-enabled request path on a non-empty list of specs, for
either value of `is_async`, returns exactly the result of processing each
spec independently through the single-request cached path in input order —
each item is forwarded to the underlying request method as a single dict,
whose dict branch ignores `is_async`, so the configured concurrency executor
is never invoked (the outcome is independent of the executor). -/
theorem C10_cached_batch_refinement (c : BaseClient)
    (send : PyDict → Nat → TransportOutcome) (exec₁ exec₂ : List PyDict → List BatchItem)
    (cfg : CacheConfig) (now : Int) (st : InMemoryCacheBackend ReqOutput)
    (ds : List PyDict) (isAsync : Bool) (hne : ds ≠ []) :
    fullCachedRequest c send exec₁ cfg now st (.listOf ds) isAsync =
      (independentSingleDispatch c send cfg now st ds isAsync).map
        (fun p => (.many p.1, p.2)) ∧
    fullCachedRequest c send exec₁ cfg now st (.listOf ds) isAsync =
      fullCachedRequest c send exec₂ cfg now st (.listOf ds) isAsync ∧
    (∀ (d : PyDict) (a₁ a₂ : Bool),
      c.request send exec₁ (.dict d) a₁ = c.request send exec₁ (.dict d) a₂) := by
  have hkey : ∀ (exec : List PyDict → List BatchItem),
      cachedProcessList cfg (c.request send exec) now st ds isAsync =
        independentSingleDispatch c send cfg now st ds isAsync := by
    intro exec
    unfold independentSingleDispatch
    exact cachedProcessList_congr cfg (c.request send exec)
      (fun rd _ =>
        match rd with
        | .dict d => .ok (.single (c.makeRequestAndFormat send d))
        | _ => .error (.validation "single-dict dispatch"))
      now (fun d b => rfl) st ds isAsync
  refine ⟨?_, ?_, fun d a₁ a₂ => rfl⟩
  · simp only [fullCachedRequest, cachedRequest]
    rw [hkey exec₁]
  · simp only [fullCachedRequest, cachedRequest]
    rw [hkey exec₁, hkey exec₂]

/-- Witness for C10: a one-element batch over the concrete client, with two
different executors. -/
theorem C10_witness :
    fullCachedRequest clientW sendOk (fun _ => []) cacheCfgW 0 emptyCacheW
        (.listOf [[]]) true =
      (independentSingleDispatch clientW sendOk cacheCfgW 0 emptyCacheW [[]] true).map
        (fun p => (.many p.1, p.2)) ∧
    fullCachedRequest clientW sendOk (fun _ => []) cacheCfgW 0 emptyCacheW
        (.listOf [[]]) true =
      fullCachedRequest clientW sendOk (fun _ => [.exc (.base "other")]) cacheCfgW 0
        emptyCacheW (.listOf [[]]) true :=
  ⟨(C10_cached_batch_refinement clientW sendOk (fun _ => [])
      (fun _ => [.exc (.base "other")]) cacheCfgW 0 emptyCacheW [[]] true
      (List.cons_ne_nil _ _)).1,
    (C10_cached_batch_refinement clientW sendOk (fun _ => [])
      (fun _ => [.exc (.base "other")]) cacheCfgW 0 emptyCacheW [[]] true
      (List.cons_ne_nil _ _)).2.1⟩
